import Mathlib

/-
Verification of the provider-fallback design of the PearMedia serverless
API routes. The repository contains several iterations of the same two
endpoints; the embedding below models, from the sources:

  * the generate-image route with the internal fallback chain
    (Gemini -> Clipdrop -> HuggingFace, suffix P3 below),
  * the fully validating generate-image route with auto-fallback to the
    keyless Pollinations provider (suffix V1),
  * the provider selection of the five-tier generate-image route
    (suffix V2),
  * the fully validating analyze-image route (OpenAI Vision), and
  * the simplified analyze-image route with Gemini/OpenAI key-based
    selection (suffix P1).

The network is modelled by oracles: a provider attempt is a function of the
provider name, the prompt and the image count, and upstream HTTP responses
are explicit parameters. All definitions are executable.
-/

namespace PearMedia

/-- Truthiness of an optional environment variable: JavaScript treats an
unset variable (undefined) and the empty string as falsy. -/
def truthyS : Option String → Bool
  | none => false
  | some s => s ≠ ""

/-- Model of the JavaScript expression `v || d` for an optional string:
the default is used when the variable is undefined or empty. -/
def jsOrS : Option String → String → String
  | none, d => d
  | some s, d => if s = "" then d else s

/-- Model of `p.startsWith(s)` / a regex anchored at the start. -/
def strStartsWith (p s : String) : Bool :=
  p.toList.isPrefixOf s.toList

/-- Helper for substring containment on character lists. -/
def subListAt : List Char → List Char → Bool
  | n, [] => n.isEmpty
  | n, c :: rest => n.isPrefixOf (c :: rest) || subListAt n rest

/-- Model of the JavaScript test `haystack.includes(needle)`. -/
def strIncludes (haystack needle : String) : Bool :=
  subListAt needle.toList haystack.toList

/-- Model of `s.trim()`: strip leading and trailing whitespace. -/
def jsTrim (s : String) : String :=
  String.mk (((s.toList.dropWhile Char.isWhitespace).reverse.dropWhile
    Char.isWhitespace).reverse)

/-- Model of `s.toLowerCase()`. -/
def lowerStr (s : String) : String :=
  String.mk (s.toList.map Char.toLower)

/-- Accumulate the numeric value of a string of decimal digits. -/
def digitsVal (ds : List Char) : Nat :=
  ds.foldl (fun a c => a * 10 + (c.toNat - 48)) 0

/-- Model of the JavaScript builtin parseInt(s, 10): leading whitespace is
skipped, an optional sign is read, then the longest prefix of decimal digits;
if that prefix is empty the result is NaN, modelled as none. -/
def jsParseInt10 (s : String) : Option Int :=
  let cs := (jsTrim s).toList
  let signRest : Int × List Char :=
    match cs with
    | '-' :: r => (-1, r)
    | '+' :: r => (1, r)
    | r => (1, r)
  let ds := signRest.2.takeWhile Char.isDigit
  if ds.isEmpty then none
  else some (signRest.1 * (digitsVal ds : Int))

/-- Model of `Math.min(Math.max(1, parseInt(env.IMAGE_COUNT || '2', 10)), maxCount)`.
NaN (none) propagates through max and min exactly as in JavaScript. -/
def imageCountClamp (v : Option String) (maxCount : Int) : Option Int :=
  match jsParseInt10 (jsOrS v "2") with
  | none => none
  | some n => some (min (max 1 n) maxCount)

/-- Number of iterations of the loop `for (let i = 0; i < c; i++)` when `c`
is NaN (none: zero iterations, every comparison with NaN being false) or an
integer. -/
def loopIters : Option Int → Nat
  | none => 0
  | some n => n.toNat

/-- A JSON value, as produced by JSON.parse of an upstream response body.
`undefined` stands for the JavaScript value undefined. -/
inductive JVal where
  | undefined
  | nullv
  | bool (b : Bool)
  | num (n : Int)
  | str (s : String)
  | arr (elems : List JVal)
  | obj (fields : List (String × JVal))

/-- Property access `v.k`; on a non-object it yields undefined, which is the
semantics of optional chaining and of property access on primitive values
(the handlers only access properties of values previously checked truthy or
through optional chaining). -/
def getProp (v : JVal) (k : String) : JVal :=
  match v with
  | .obj fields => ((fields.find? (fun p => p.1 = k)).map (fun p => p.2)).getD .undefined
  | _ => .undefined

/-- Property assignment `v.k = x` on an object, modelled functionally;
assignment on a non-object is a silent no-op. -/
def setProp (v : JVal) (k : String) (x : JVal) : JVal :=
  match v with
  | .obj fields => .obj (fields.map (fun p => if p.1 = k then (p.1, x) else p))
  | _ => v

/-- JavaScript truthiness of a JSON value: undefined, null, false, 0 and the
empty string are falsy; every array and object, even an empty one, is truthy. -/
def truthyJ : JVal → Bool
  | .undefined => false
  | .nullv => false
  | .bool b => b
  | .num n => n ≠ 0
  | .str s => s ≠ ""
  | .arr _ => true
  | .obj _ => true

/-- Model of `Array.isArray`. -/
def isArrayJ : JVal → Bool
  | .arr _ => true
  | _ => false

/-- Index access `v[i]` on an array; undefined out of bounds / on non-arrays. -/
def jIndex (v : JVal) (i : Nat) : JVal :=
  match v with
  | .arr elems => elems.getD i .undefined
  | _ => .undefined

/-- A field of a parsed JSON request body. `absent` is a missing field
(undefined), `nullv` an explicit null, `str` a string, and `other` any
non-string, non-null value. -/
inductive JField where
  | absent
  | nullv
  | str (s : String)
  | other
deriving DecidableEq

/-- Truthiness of a request body field. -/
def truthyF : JField → Bool
  | .absent => false
  | .nullv => false
  | .str s => s ≠ ""
  | .other => true

/-- The test `f !== undefined && f !== null` used by the analyze handler. -/
def hasField : JField → Bool
  | .absent => false
  | .nullv => false
  | _ => true

/-- String coercion of a body field by a template literal. -/
def jfToString : JField → String
  | .absent => "undefined"
  | .nullv => "null"
  | .str s => s
  | .other => "[object Object]"

/-- HTTP response of a handler: a status code and a JSON body. -/
inductive RespBody where
  | errJson (msg : String)
  | imagesJson (urls : List String)
  | jsonVal (v : JVal)

structure Resp where
  status : Nat
  body : RespBody

/-- Outcome of one provider invocation: a resolved list of image references
or a thrown error carrying its message. -/
inductive GenOutcome where
  | ok (images : List String)
  | err (msg : String)
deriving DecidableEq

def GenOutcome.isErr : GenOutcome → Bool
  | .ok _ => false
  | .err _ => true

/-- Environment of the generate-image routes. -/
structure GenEnv where
  IMAGE_PROVIDER : Option String
  IMAGE_COUNT : Option String
  GOOGLE_API_KEY : Option String
  CLIPDROP_API_KEY : Option String
  HUGGINGFACE_API_KEY : Option String
  OPENAI_API_KEY : Option String
  TOGETHER_API_KEY : Option String

/-- The network, seen by a provider invoker: the outcome of the remote
call(s) of one provider attempt, as a function of the provider name, the
prompt and the image count. -/
def Oracle := String → String → Option Int → GenOutcome

/-- Request body of the generate-image routes. -/
structure GenBody where
  prompt : JField
  style : JField
deriving DecidableEq

/-
Generate-image route with the internal fallback chain (part_003):
providers gemini, clipdrop, huggingface, openai, together.
-/

/-- Prompt composition of the internal-fallback variant:
`${prompt}. Image style: ${style}` when a style is truthy. -/
def buildPromptP3 (prompt : String) (style : JField) : String :=
  if truthyF style then prompt ++ ". Image style: " ++ jfToString style
  else prompt

/-- Provider selection of the internal-fallback variant: an IMAGE_PROVIDER
override (lower-cased) if truthy, otherwise the first of
gemini/clipdrop/huggingface/openai/together whose key is set; the empty
string means no provider (the route then throws). -/
def selectProviderP3 (env : GenEnv) : String :=
  if lowerStr (jsOrS env.IMAGE_PROVIDER "") = "" then
    if truthyS env.GOOGLE_API_KEY then "gemini"
    else if truthyS env.CLIPDROP_API_KEY then "clipdrop"
    else if truthyS env.HUGGINGFACE_API_KEY then "huggingface"
    else if truthyS env.OPENAI_API_KEY then "openai"
    else if truthyS env.TOGETHER_API_KEY then "together"
    else ""
  else lowerStr (jsOrS env.IMAGE_PROVIDER "")

/-- Entry credential checks of the five provider functions of the
internal-fallback variant: each invoker throws when its key is missing and
otherwise performs its remote calls, modelled by the oracle. -/
def invokeP3 (env : GenEnv) (oracle : Oracle) (name prompt : String)
    (count : Option Int) : GenOutcome :=
  if name = "gemini" then
    if truthyS env.GOOGLE_API_KEY then oracle "gemini" prompt count
    else .err "GOOGLE_API_KEY not set"
  else if name = "clipdrop" then
    if truthyS env.CLIPDROP_API_KEY then oracle "clipdrop" prompt count
    else .err "CLIPDROP_API_KEY not set"
  else if name = "huggingface" then
    if truthyS env.HUGGINGFACE_API_KEY then oracle "huggingface" prompt count
    else .err "HUGGINGFACE_API_KEY not set"
  else if name = "openai" then
    if truthyS env.OPENAI_API_KEY then oracle "openai" prompt count
    else .err "Key not set"
  else if name = "together" then
    if truthyS env.TOGETHER_API_KEY then oracle "together" prompt count
    else .err "Key not set"
  else .err ("Unknown provider: " ++ name)

/-- The switch of generateImages: a known provider name enters its invoker
(recorded in the trace), an unknown name throws without any invocation. -/
def dispatchP3 (env : GenEnv) (oracle : Oracle) (provider prompt : String)
    (count : Option Int) : GenOutcome × List (String × String) :=
  if provider = "gemini" ∨ provider = "clipdrop" ∨ provider = "huggingface" ∨
      provider = "openai" ∨ provider = "together" then
    (invokeP3 env oracle provider prompt count, [(provider, prompt)])
  else
    (.err ("Unknown provider: " ++ provider), [])

/-- Outcome of the catch block of generateImages: failover to Clipdrop when
the selected provider was gemini and CLIPDROP_API_KEY is set, else to
HuggingFace when the selected provider was gemini or clipdrop and
HUGGINGFACE_API_KEY is set, else rethrow of the original error. -/
def fallbackP3 (env : GenEnv) (oracle : Oracle) (provider prompt : String)
    (count : Option Int) (firstErr : String) : GenOutcome :=
  if provider = "gemini" ∧ truthyS env.CLIPDROP_API_KEY then
    invokeP3 env oracle "clipdrop" prompt count
  else if (provider = "gemini" ∨ provider = "clipdrop") ∧
      truthyS env.HUGGINGFACE_API_KEY then
    invokeP3 env oracle "huggingface" prompt count
  else .err firstErr

/-- Providers invoked by the catch block of generateImages. -/
def fallbackTraceP3 (env : GenEnv) (provider prompt : String) :
    List (String × String) :=
  if provider = "gemini" ∧ truthyS env.CLIPDROP_API_KEY then
    [("clipdrop", prompt)]
  else if (provider = "gemini" ∨ provider = "clipdrop") ∧
      truthyS env.HUGGINGFACE_API_KEY then
    [("huggingface", prompt)]
  else []

/-- generateImages of the internal-fallback variant, together with the trace
of provider invocations (provider name and the prompt it received). -/
def generateImagesP3 (env : GenEnv) (oracle : Oracle) (prompt : String)
    (count : Option Int) : GenOutcome × List (String × String) :=
  if selectProviderP3 env = "" then
    (.err "No supported API keys configured. Switching to Puter.js fallback.", [])
  else
    match dispatchP3 env oracle (selectProviderP3 env) prompt count with
    | (.ok imgs, tr) => (.ok imgs, tr)
    | (.err e, tr) =>
      (fallbackP3 env oracle (selectProviderP3 env) prompt count e,
       tr ++ fallbackTraceP3 env (selectProviderP3 env) prompt)

/-- Handler of the internal-fallback variant: rejects non-POST and falsy
prompts, clamps IMAGE_COUNT to 1..4 (NaN passes through), builds the final
prompt once and maps any cascade error to a 503 response. The handler is a
total function: every provider error is caught. -/
def handlerP3 (env : GenEnv) (oracle : Oracle) (method : String)
    (body : GenBody) : Resp × List (String × String) :=
  if method ≠ "POST" then (⟨405, .errJson "Method not allowed"⟩, [])
  else if ¬ truthyF body.prompt then (⟨400, .errJson "Missing prompt"⟩, [])
  else
    match generateImagesP3 env oracle
        (buildPromptP3 (jfToString body.prompt) body.style)
        (imageCountClamp env.IMAGE_COUNT 4) with
    | (.ok imgs, tr) => (⟨200, .imagesJson imgs⟩, tr)
    | (.err m, tr) =>
      (⟨503, .errJson (if m = "" then "Service Unavailable" else m)⟩, tr)

/-- Per-call fetch descriptor of an invoker: target URL, HTTP method and the
per-call timeout installed via an AbortController, when there is one. -/
structure FetchCall where
  url : String
  method : String
  timeoutMs : Option Nat

/-- The Gemini invoker of the internal-fallback variant wraps its fetch in
an AbortController armed with setTimeout(8000). -/
def geminiFetchP3 (apiKey : String) : FetchCall :=
  { url := "https://generativelanguage.googleapis.com/v1beta/models/imagen-3.0-generate-001:predict?key=" ++ apiKey
    method := "POST"
    timeoutMs := some 8000 }

/-- The Clipdrop invoker issues its fetches with no abort signal. -/
def clipdropFetchP3 : FetchCall :=
  { url := "https://clipdrop-api.co/text-to-image/v1"
    method := "POST"
    timeoutMs := none }

/-- The HuggingFace invoker issues its fetches with no abort signal. -/
def huggingFaceFetchP3 : FetchCall :=
  { url := "https://api-inference.huggingface.co/models/black-forest-labs/FLUX.1-dev"
    method := "POST"
    timeoutMs := none }

/-- The OpenAI invoker issues its fetches with no abort signal. -/
def openAIFetchP3 : FetchCall :=
  { url := "https://api.openai.com/v1/images/generations"
    method := "POST"
    timeoutMs := none }

/-- The Together invoker issues its fetch with no abort signal. -/
def togetherFetchP3 : FetchCall :=
  { url := "https://api.together.xyz/v1/images/generations"
    method := "POST"
    timeoutMs := none }

/-- Upstream HTTP response of the Gemini predict endpoint. -/
inductive GeminiUpstream where
  | httpErr (status : Nat) (errMessage : Option String)
  | httpOk (predictions : Option (List (String × String)))

/-- The sampleCount sent in the Gemini request body: `Math.min(imageCount, 4)`. -/
def geminiSampleCount : Option Int → Option Int
  | none => none
  | some n => some (min n 4)

/-- Response processing of generateWithGemini: on a non-ok status the error
message (or a generic one) is thrown, a missing predictions field is thrown,
and otherwise every returned prediction is mapped to a data URI — the length
of the result is the length of the predictions list, with no check against
the requested image count. -/
def generateWithGeminiCore (env : GenEnv) (up : GeminiUpstream)
    (imageCount : Option Int) : GenOutcome :=
  if truthyS env.GOOGLE_API_KEY then
    match up with
    | .httpErr status m => .err (jsOrS m ("Gemini API error " ++ toString status))
    | .httpOk none => .err "Gemini returned no predictions"
    | .httpOk (some preds) =>
      .ok (preds.map (fun pr => "data:" ++ pr.1 ++ ";base64," ++ pr.2))
  else .err "GOOGLE_API_KEY not set"

/-- Result of one Clipdrop sub-call: the base64 of the returned image bytes,
or a rejection. -/
inductive SubRes where
  | okBase64 (b : String)
  | errMsg (m : String)

def isSubErr : SubRes → Bool
  | .okBase64 _ => false
  | .errMsg _ => true

def subErrText : SubRes → String
  | .okBase64 _ => ""
  | .errMsg m => m

def subImage : SubRes → String
  | .okBase64 b => "data:image/png;base64," ++ b
  | .errMsg _ => ""

/-- generateWithClipdrop: one fetch per requested image, joined by
Promise.all — if any sub-call rejects the whole attempt rejects (with the
first rejection), otherwise the data URIs of all sub-calls are returned. -/
def generateWithClipdropP3 (env : GenEnv) (sub : Nat → SubRes)
    (prompt : String) (imageCount : Option Int) : GenOutcome :=
  if truthyS env.CLIPDROP_API_KEY then
    match (List.range (loopIters imageCount)).find? (fun i => isSubErr (sub i)) with
    | some i => .err (subErrText (sub i))
    | none => .ok ((List.range (loopIters imageCount)).map (fun i => subImage (sub i)))
  else .err "CLIPDROP_API_KEY not set"

/-
Fully validating generate-image route (api/generate-image.js, first
document): providers openai, huggingface, pollinations; auto-fallback to
Pollinations.
-/

/-- The fixed style-modifier table of buildPrompt. -/
def styleModifiersV1 (s : String) : Option String :=
  if s = "realistic" then some ", photorealistic quality"
  else if s = "cinematic" then some ", cinematic lighting and composition"
  else if s = "anime" then some ", anime art style"
  else if s = "oil painting" then some ", oil painting style"
  else if s = "watercolor" then some ", watercolor painting style"
  else if s = "digital art" then some ", digital art style"
  else if s = "sketch" then some ", pencil sketch style"
  else if s = "3d render" then some ", 3D rendered style"
  else none

/-- buildPrompt of the fully validating route: no modifier without a truthy
style; a canned suffix for a known (lower-cased) style name; the generic
`, <style> style` suffix otherwise. -/
def buildPromptV1 (prompt : String) (style : Option String) : String :=
  match style with
  | none => prompt
  | some s =>
    if s = "" then prompt
    else prompt ++ ((styleModifiersV1 (lowerStr s)).getD (", " ++ s ++ " style"))

/-- Hexadecimal digit for percent-encoding. -/
def hexDigitChar (n : Nat) : Char :=
  if n < 10 then Char.ofNat (48 + n) else Char.ofNat (55 + n)

def percentEncodeByte (b : Nat) : String :=
  "%" ++ String.mk [hexDigitChar (b / 16), hexDigitChar (b % 16)]

/-- UTF-8 bytes of a code point, as plain naturals. -/
def utf8Bytes (n : Nat) : List Nat :=
  if n < 128 then [n]
  else if n < 2048 then [192 + n / 64, 128 + n % 64]
  else if n < 65536 then [224 + n / 4096, 128 + (n / 64) % 64, 128 + n % 64]
  else [240 + n / 262144, 128 + (n / 4096) % 64, 128 + (n / 64) % 64, 128 + n % 64]

def uriUnreserved (n : Nat) : Bool :=
  (48 ≤ n && n ≤ 57) || (65 ≤ n && n ≤ 90) || (97 ≤ n && n ≤ 122) ||
  n = 45 || n = 46 || n = 33 || n = 95 || n = 126 || n = 42 || n = 39 ||
  n = 40 || n = 41

/-- Model of the JavaScript builtin encodeURIComponent: unreserved
characters pass through, every other byte of the UTF-8 encoding is
percent-encoded. -/
def jsEncodeURIComponent (s : String) : String :=
  String.join (s.toList.map (fun c =>
    if uriUnreserved c.toNat then String.mk [c]
    else String.join ((utf8Bytes c.toNat).map percentEncodeByte)))

/-- One Pollinations image URL, for a given seed. -/
def pollinationsUrlV1 (prompt : String) (seed : Nat) : String :=
  "https://image.pollinations.ai/prompt/" ++ jsEncodeURIComponent prompt ++
  "?width=1024&height=1024&seed=" ++ toString seed ++ "&nologo=true"

/-- generateWithPollinations: one synthesized URL per requested image, no
network call, never throws; the random seeds are an input of the model. -/
def generateWithPollinationsV1 (seeds : Nat → Nat) (prompt : String)
    (count : Option Int) : List String :=
  (List.range (loopIters count)).map (fun i => pollinationsUrlV1 prompt (seeds i))

/-- Credential gate of generateWithOpenAI of the fully validating route. -/
def invokeOpenAIV1 (env : GenEnv) (oracle : Oracle) (prompt : String)
    (count : Option Int) : GenOutcome :=
  if truthyS env.OPENAI_API_KEY then oracle "openai" prompt count
  else .err "OPENAI_API_KEY environment variable is not set"

/-- Credential gate of generateWithHuggingFace of the fully validating route. -/
def invokeHuggingFaceV1 (env : GenEnv) (oracle : Oracle) (prompt : String)
    (count : Option Int) : GenOutcome :=
  if truthyS env.HUGGINGFACE_API_KEY then oracle "huggingface" prompt count
  else .err "HUGGINGFACE_API_KEY environment variable is not set"

/-- The primary attempt of generateImages of the fully validating route:
provider = (IMAGE_PROVIDER || 'pollinations').toLowerCase(), switched over
openai / huggingface (alias hf) / default pollinations. -/
def firstAttemptV1 (env : GenEnv) (oracle : Oracle) (seeds : Nat → Nat)
    (prompt : String) (count : Option Int) :
    GenOutcome × List (String × String) :=
  if lowerStr (jsOrS env.IMAGE_PROVIDER "pollinations") = "openai" then
    (invokeOpenAIV1 env oracle prompt count, [("openai", prompt)])
  else if lowerStr (jsOrS env.IMAGE_PROVIDER "pollinations") = "huggingface" ∨
      lowerStr (jsOrS env.IMAGE_PROVIDER "pollinations") = "hf" then
    (invokeHuggingFaceV1 env oracle prompt count, [("huggingface", prompt)])
  else
    (.ok (generateWithPollinationsV1 seeds prompt count), [("pollinations", prompt)])

/-- generateImages of the fully validating route: on any primary failure the
catch block returns the Pollinations result for the same prompt. -/
def generateImagesV1 (env : GenEnv) (oracle : Oracle) (seeds : Nat → Nat)
    (prompt : String) (count : Option Int) :
    GenOutcome × List (String × String) :=
  match firstAttemptV1 env oracle seeds prompt count with
  | (.ok imgs, tr) => (.ok imgs, tr)
  | (.err _, tr) =>
    (.ok (generateWithPollinationsV1 seeds prompt count),
     tr ++ [("pollinations", prompt)])

/-- Error-to-status mapping of the catch block of the fully validating
handler. -/
def mapGenErrorV1 (m : String) : Resp :=
  if strIncludes m "API_KEY" then
    ⟨500, .errJson "Server configuration error. API key not configured."⟩
  else if strIncludes m "loading" then
    ⟨503, .errJson "Model is loading. Please wait 20-30 seconds and try again."⟩
  else if strIncludes m "Billing" ∨ strIncludes m "limit" then
    ⟨402, .errJson "API billing limit reached. Please try a free provider."⟩
  else if strIncludes m "content policy" then
    ⟨400, .errJson "Prompt violates content policy. Please modify your description."⟩
  else ⟨500, .errJson "Image generation failed. Please try again."⟩

/-- Validation of the optional style field: undefined is accepted as no
style, a string is accepted, anything else is a 400 type error. -/
def styleFieldV1 : JField → Except Resp (Option String)
  | .absent => .ok none
  | .str s => .ok (some s)
  | .nullv => .error ⟨400, .errJson "Invalid field type: style must be a string."⟩
  | .other => .error ⟨400, .errJson "Invalid field type: style must be a string."⟩

/-- HTTP request of the generate-image routes. -/
structure GenReq where
  method : String
  contentType : String
  body : Option GenBody

/-- Handler of the fully validating generate-image route: method and
content-type checks, body and prompt validation (trimmed emptiness and the
4000-character cap), style type check, IMAGE_COUNT clamped to 1..3 (NaN
passes through), then the provider cascade with error mapping. -/
def handlerV1 (env : GenEnv) (oracle : Oracle) (seeds : Nat → Nat)
    (req : GenReq) : Resp × List (String × String) :=
  if req.method ≠ "POST" then (⟨405, .errJson "Method not allowed. Use POST."⟩, [])
  else if ¬ strIncludes req.contentType "application/json" then
    (⟨415, .errJson "Unsupported Media Type. Use application/json."⟩, [])
  else
    match req.body with
    | none => (⟨400, .errJson "Invalid request body."⟩, [])
    | some body =>
      match body.prompt with
      | .absent => (⟨400, .errJson "Missing required field: prompt"⟩, [])
      | .nullv => (⟨400, .errJson "Missing required field: prompt"⟩, [])
      | .other => (⟨400, .errJson "Invalid field type: prompt must be a string."⟩, [])
      | .str ps =>
        if jsTrim ps = "" then (⟨400, .errJson "Prompt cannot be empty."⟩, [])
        else if (jsTrim ps).length > 4000 then
          (⟨400, .errJson "Prompt too long. Maximum 4,000 characters allowed."⟩, [])
        else
          match styleFieldV1 body.style with
          | .error r => (r, [])
          | .ok styleOpt =>
            match generateImagesV1 env oracle seeds
                (buildPromptV1 (jsTrim ps) styleOpt)
                (imageCountClamp env.IMAGE_COUNT 3) with
            | (.ok imgs, tr) => (⟨200, .imagesJson imgs⟩, tr)
            | (.err m, tr) => (mapGenErrorV1 m, tr)

/-
Provider selection of the five-tier generate-image route (second document of
api/generate-image.js): gemini -> together -> openai -> pollinations.
-/

/-- Provider selection of the five-tier route: an IMAGE_PROVIDER override
(lower-cased) if truthy, otherwise the first credentialed of
gemini/together/openai, else the keyless pollinations. -/
def selectProviderV2 (env : GenEnv) : String :=
  if lowerStr (jsOrS env.IMAGE_PROVIDER "") = "" then
    if truthyS env.GOOGLE_API_KEY then "gemini"
    else if truthyS env.TOGETHER_API_KEY then "together"
    else if truthyS env.OPENAI_API_KEY then "openai"
    else "pollinations"
  else lowerStr (jsOrS env.IMAGE_PROVIDER "")

/-- Modelled from the spec (section 4.1 Provider Selector): the priority
scan — the first entry of the fixed priority list whose required credential
is present, the given default naming the no-provider condition. -/
def firstCredentialed (prio : List (String × Bool)) (dflt : String) : String :=
  match prio.find? (fun p => p.2) with
  | some p => p.1
  | none => dflt

/-- Selection rule as the code implements it (amending the spec, whose
"set and recognized" condition on the override is absent from the code): any
truthy override is used lower-cased, recognized or not, and only an unset or
empty override falls to the priority scan. -/
def overrideOrFirstCredentialed (override : Option String)
    (prio : List (String × Bool)) (dflt : String) : String :=
  if truthyS override then lowerStr (jsOrS override "")
  else firstCredentialed prio dflt

/-- Priority list of the internal-fallback variant, with the presence of
each required credential. -/
def prioListP3 (env : GenEnv) : List (String × Bool) :=
  [("gemini", truthyS env.GOOGLE_API_KEY),
   ("clipdrop", truthyS env.CLIPDROP_API_KEY),
   ("huggingface", truthyS env.HUGGINGFACE_API_KEY),
   ("openai", truthyS env.OPENAI_API_KEY),
   ("together", truthyS env.TOGETHER_API_KEY)]

/-- Priority list of the five-tier route; pollinations is keyless, its
credential is vacuously present. -/
def prioListV2 (env : GenEnv) : List (String × Bool) :=
  [("gemini", truthyS env.GOOGLE_API_KEY),
   ("together", truthyS env.TOGETHER_API_KEY),
   ("openai", truthyS env.OPENAI_API_KEY),
   ("pollinations", true)]

/-- Required credential, by provider name, of the internal-fallback variant. -/
def credOKP3 (env : GenEnv) (name : String) : Bool :=
  if name = "gemini" then truthyS env.GOOGLE_API_KEY
  else if name = "clipdrop" then truthyS env.CLIPDROP_API_KEY
  else if name = "huggingface" then truthyS env.HUGGINGFACE_API_KEY
  else if name = "openai" then truthyS env.OPENAI_API_KEY
  else if name = "together" then truthyS env.TOGETHER_API_KEY
  else true

/-
Fully validating analyze-image route (api/analyze-image.js): single OpenAI
Vision provider with structural validation of the parsed response.
-/

/-- Environment of the analyze-image routes. -/
structure AnalyzeEnv where
  OPENAI_API_KEY : Option String
  OPENAI_BASE_URL : Option String
  VISION_MODEL : Option String
  GOOGLE_API_KEY : Option String

/-- Request body of the analyze-image routes. -/
structure AnalyzeBody where
  imageUrl : JField
  imageBase64 : JField
deriving DecidableEq

/-- HTTP request of the analyze-image routes. -/
structure AnalyzeReq where
  method : String
  contentType : String
  body : Option AnalyzeBody

/-- An error escaping analyzeImage: a SyntaxError from JSON.parse or a
thrown Error with a message. -/
inductive AErr where
  | syn (msg : String)
  | std (msg : String)

/-- Model of isValidBase64Image: the anchored regex over the five accepted
image MIME types, plus the 27MB length cap. -/
def isValidBase64Image : JField → Bool
  | .str s =>
    (strStartsWith "data:image/png;base64," s ||
     strStartsWith "data:image/jpeg;base64," s ||
     strStartsWith "data:image/jpg;base64," s ||
     strStartsWith "data:image/gif;base64," s ||
     strStartsWith "data:image/webp;base64," s) &&
    s.length ≤ 27 * 1024 * 1024
  | _ => false

/-- Model of isValidUrl, which runs the URL constructor and accepts the
protocols http and https. The full WHATWG URL grammar is not reproduced: the
model accepts strings beginning with the scheme http:// or https:// followed
by at least one further character. No theorem below depends on this
predicate. -/
def isValidUrlModel : JField → Bool
  | .str s =>
    (strStartsWith "http://" (lowerStr s) && s.length > 7) ||
    (strStartsWith "https://" (lowerStr s) && s.length > 8)
  | _ => false

/-- Default mutation of analyzeImage after validation: a non-array objects
field is wrapped into a one-element array. -/
def ensureObjectsArray (parsed : JVal) : JVal :=
  if isArrayJ (getProp (getProp parsed "analysis") "objects") then parsed
  else
    setProp parsed "analysis"
      (setProp (getProp parsed "analysis") "objects"
        (.arr [getProp (getProp parsed "analysis") "objects"]))

/-- Field validation of analyzeImage (after JSON.parse): analysis and
suggestedPrompt must be truthy, then objects, style, mood and lighting of
analysis must be truthy; otherwise the corresponding error is thrown. Note
that an empty array is truthy, so an empty objects list passes. -/
def validateParsed (parsed : JVal) : Except AErr JVal :=
  if truthyJ (getProp parsed "analysis") ∧ truthyJ (getProp parsed "suggestedPrompt") then
    if truthyJ (getProp (getProp parsed "analysis") "objects") ∧
        truthyJ (getProp (getProp parsed "analysis") "style") ∧
        truthyJ (getProp (getProp parsed "analysis") "mood") ∧
        truthyJ (getProp (getProp parsed "analysis") "lighting") then
      .ok (ensureObjectsArray parsed)
    else .error (.std "Missing required analysis fields from Vision API")
  else .error (.std "Invalid response format from Vision API")

/-- Upstream HTTP response of the Vision chat-completions endpoint. -/
inductive VisionUpstream where
  | httpErr (status : Nat) (errMessage : Option String)
  | httpOk (data : JVal)

/-- analyzeImage of the fully validating analyze route: credential check,
HTTP error propagation (`errorData.error?.message` or a generic message),
extraction of `data.choices?.[0]?.message?.content`, JSON.parse (a parse
failure is a SyntaxError) and field validation. A truthy non-string content
necessarily fails JSON.parse-plus-validation in the source; the model maps
it to the same invalid-response error. -/
def analyzeImageM (env : AnalyzeEnv) (up : VisionUpstream)
    (parseJSON : String → Except String JVal) : Except AErr JVal :=
  if truthyS env.OPENAI_API_KEY then
    match up with
    | .httpErr status m =>
      .error (.std (jsOrS m ("API request failed with status " ++ toString status)))
    | .httpOk data =>
      match getProp (getProp (jIndex (getProp data "choices") 0) "message") "content" with
      | .str s =>
        if s = "" then .error (.std "No response content from Vision API")
        else
          match parseJSON s with
          | .error e => .error (.syn e)
          | .ok parsed => validateParsed parsed
      | c =>
        if truthyJ c then .error (.std "Invalid response format from Vision API")
        else .error (.std "No response content from Vision API")
  else .error (.std "OPENAI_API_KEY environment variable is not set")

/-- Error-to-status mapping of the catch block of the fully validating
analyze handler; a SyntaxError always lands in a 502 branch. -/
def mapAnalyzeError : AErr → Resp
  | .syn m =>
    if strIncludes m "OPENAI_API_KEY" then
      ⟨500, .errJson "Server configuration error. API key not configured."⟩
    else if strIncludes m "API request failed" then
      ⟨502, .errJson "Failed to connect to Vision API. Please try again."⟩
    else ⟨502, .errJson "Invalid response from Vision API. Please try again."⟩
  | .std m =>
    if strIncludes m "OPENAI_API_KEY" then
      ⟨500, .errJson "Server configuration error. API key not configured."⟩
    else if strIncludes m "API request failed" then
      ⟨502, .errJson "Failed to connect to Vision API. Please try again."⟩
    else if strIncludes m "Invalid response" then
      ⟨502, .errJson "Invalid response from Vision API. Please try again."⟩
    else if strIncludes m "Could not process image" ∨ strIncludes m "Invalid image" then
      ⟨400, .errJson "Could not process the provided image. Please check the image URL or data."⟩
    else ⟨500, .errJson "Internal server error. Please try again later."⟩

/-- Handler of the fully validating analyze route; the boolean records
whether analyzeImage (the provider call) was entered. -/
def handlerAnalyze (env : AnalyzeEnv) (req : AnalyzeReq) (up : VisionUpstream)
    (parseJSON : String → Except String JVal) : Resp × Bool :=
  if req.method ≠ "POST" then (⟨405, .errJson "Method not allowed. Use POST."⟩, false)
  else if ¬ strIncludes req.contentType "application/json" then
    (⟨415, .errJson "Unsupported Media Type. Use application/json."⟩, false)
  else
    match req.body with
    | none => (⟨400, .errJson "Invalid request body."⟩, false)
    | some body =>
      if ¬ hasField body.imageUrl ∧ ¬ hasField body.imageBase64 then
        (⟨400, .errJson "Missing required field: provide either imageUrl or imageBase64"⟩, false)
      else if hasField body.imageUrl ∧ hasField body.imageBase64 then
        (⟨400, .errJson "Provide only one of imageUrl or imageBase64, not both."⟩, false)
      else if hasField body.imageUrl ∧ ¬ isValidUrlModel body.imageUrl then
        (⟨400, .errJson "Invalid imageUrl. Must be a valid HTTP/HTTPS URL."⟩, false)
      else if hasField body.imageBase64 ∧ ¬ isValidBase64Image body.imageBase64 then
        (⟨400, .errJson "Invalid imageBase64. Must be a valid data URL (e.g., data:image/png;base64,...)"⟩, false)
      else
        match analyzeImageM env up parseJSON with
        | .ok result =>
          (⟨200, .jsonVal (.obj [("analysis", getProp result "analysis"),
            ("suggestedPrompt", getProp result "suggestedPrompt")])⟩, true)
        | .error e => (mapAnalyzeError e, true)

/-
Simplified analyze-image route (part_001): Gemini model-loop primary,
OpenAI secondary, selected by key presence; only imageBase64 is accepted
and no field validation is performed on the parsed result.
-/

/-- The Gemini vision models tried in order by the simplified analyze route. -/
def geminiModelsP1 : List String :=
  ["gemini-1.5-flash", "gemini-1.5-flash-latest", "gemini-2.0-flash-exp",
   "gemini-1.5-pro"]

/-- The model loop of analyzeWithGemini: first model whose call parses wins;
when all fail the last error is rethrown. One oracle call stands for the
fetch, content extraction and JSON.parse of one model attempt. -/
def geminiLoopP1 (oracle : String → Except String JVal) :
    List String → Option String → Except String JVal
  | [], last => .error (last.getD "All Gemini models failed")
  | m :: ms, last =>
    match oracle m with
    | .ok v => .ok v
    | .error e => geminiLoopP1 oracle ms (some e)

/-- analyzeWithGemini of the simplified analyze route: note that the parsed
JSON is returned as-is, with no field validation. -/
def analyzeWithGeminiP1 (oracle : String → Except String JVal) :
    Except String JVal :=
  geminiLoopP1 oracle geminiModelsP1 none

/-- Handler of the simplified analyze route: requires a truthy imageBase64
(imageUrl is ignored entirely), selects Gemini when GOOGLE_API_KEY is set,
else OpenAI when OPENAI_API_KEY is set, else throws; every caught error is
a 500. The second component records which provider was contacted. -/
def handlerAnalyzeP1 (env : AnalyzeEnv) (method : String)
    (body : Option AnalyzeBody) (geminiOracle : String → Except String JVal)
    (openaiResult : Except String JVal) : Resp × Option String :=
  if method ≠ "POST" then (⟨405, .errJson "Method not allowed"⟩, none)
  else
    match body with
    | none => (⟨400, .errJson "imageBase64 required"⟩, none)
    | some b =>
      if ¬ truthyF b.imageBase64 then (⟨400, .errJson "imageBase64 required"⟩, none)
      else if truthyS env.GOOGLE_API_KEY then
        match analyzeWithGeminiP1 geminiOracle with
        | .ok result => (⟨200, .jsonVal result⟩, some "gemini")
        | .error e =>
          (⟨500, .errJson (if e = "" then "Analysis failed" else e)⟩, some "gemini")
      else if truthyS env.OPENAI_API_KEY then
        match openaiResult with
        | .ok result => (⟨200, .jsonVal result⟩, some "openai")
        | .error e =>
          (⟨500, .errJson (if e = "" then "Analysis failed" else e)⟩, some "openai")
      else
        (⟨500, .errJson "No Vision API keys found (GOOGLE_API_KEY or OPENAI_API_KEY)"⟩, none)

/-
Concrete fixtures used by witnesses and counterexamples.
-/

/-- Environment with only GOOGLE_API_KEY and HUGGINGFACE_API_KEY set. -/
def fxEnvGH : GenEnv :=
  { IMAGE_PROVIDER := none, IMAGE_COUNT := none, GOOGLE_API_KEY := some "g",
    CLIPDROP_API_KEY := none, HUGGINGFACE_API_KEY := some "h",
    OPENAI_API_KEY := none, TOGETHER_API_KEY := none }

/-- Environment with only GOOGLE_API_KEY set. -/
def fxEnvG : GenEnv :=
  { IMAGE_PROVIDER := none, IMAGE_COUNT := none, GOOGLE_API_KEY := some "g",
    CLIPDROP_API_KEY := none, HUGGINGFACE_API_KEY := none,
    OPENAI_API_KEY := none, TOGETHER_API_KEY := none }

/-- Environment with GOOGLE_API_KEY and CLIPDROP_API_KEY set. -/
def fxEnvGC : GenEnv :=
  { IMAGE_PROVIDER := none, IMAGE_COUNT := none, GOOGLE_API_KEY := some "g",
    CLIPDROP_API_KEY := some "c", HUGGINGFACE_API_KEY := none,
    OPENAI_API_KEY := none, TOGETHER_API_KEY := none }

/-- Environment with no variable set at all. -/
def fxEnvNone : GenEnv :=
  { IMAGE_PROVIDER := none, IMAGE_COUNT := none, GOOGLE_API_KEY := none,
    CLIPDROP_API_KEY := none, HUGGINGFACE_API_KEY := none,
    OPENAI_API_KEY := none, TOGETHER_API_KEY := none }

/-- Oracle on which only the gemini attempt fails. -/
def fxOracleFailGemini : Oracle :=
  fun n _ _ => if n = "gemini" then .err "boom" else .ok ["img"]

/-- Oracle on which every attempt fails. -/
def fxOracleAllErr : Oracle := fun _ _ _ => .err "down"

/-- Oracle on which every attempt succeeds with one image. -/
def fxOracleOkImg : Oracle := fun _ _ _ => .ok ["img"]

/-- Constant zero seeds for the Pollinations model. -/
def fxSeeds : Nat → Nat := fun _ => 0

/-- A parsed Vision response whose objects list is empty but all required
fields are present and truthy. -/
def fxParsedEmptyObjects : JVal :=
  .obj [("analysis", .obj [("objects", .arr []), ("style", .str "flat"),
    ("mood", .str "calm"), ("lighting", .str "soft")]),
    ("suggestedPrompt", .str "a prompt")]

/-- Upstream Vision response whose single choice carries the content
string "J". -/
def fxVisionData : VisionUpstream :=
  .httpOk (.obj [("choices", .arr [.obj [("message",
    .obj [("content", .str "J")])]])])

/-- JSON.parse oracle mapping "J" to the empty-objects parsed response. -/
def fxParseJ : String → Except String JVal :=
  fun s => if s = "J" then .ok fxParsedEmptyObjects else .error "Unexpected token"

/-- Analyze environment with only OPENAI_API_KEY set. -/
def fxAEnvO : AnalyzeEnv :=
  { OPENAI_API_KEY := some "k", OPENAI_BASE_URL := none, VISION_MODEL := none,
    GOOGLE_API_KEY := none }

/-- Analyze environment with only GOOGLE_API_KEY set. -/
def fxAEnvG : AnalyzeEnv :=
  { OPENAI_API_KEY := none, OPENAI_BASE_URL := none, VISION_MODEL := none,
    GOOGLE_API_KEY := some "g" }

/-- An analyze body carrying only a base64 image. -/
def fxABodyBase64 : AnalyzeBody :=
  { imageUrl := .absent, imageBase64 := .str "data:image/png;base64,AAAA" }

/-- A well-formed analyze request carrying only a base64 image. -/
def fxAReqBase64 : AnalyzeReq :=
  { method := "POST", contentType := "application/json",
    body := some fxABodyBase64 }

/-- An analyze body carrying both an imageUrl and an imageBase64. -/
def fxABodyBoth : AnalyzeBody :=
  { imageUrl := .str "http://example.com/a.png",
    imageBase64 := .str "data:image/png;base64,AAAA" }

/-- Gemini oracle of the simplified analyze route answering the first model
with an empty object. -/
def fxGemOracleOk : String → Except String JVal :=
  fun _ => .ok (.obj [])

/-- Clipdrop sub-call results: first call resolves, every later one rejects. -/
def fxSubOneErr : Nat → SubRes :=
  fun i => if i = 0 then .okBase64 "AA" else .errMsg "bad"

/-- Clipdrop sub-call results: every call resolves. -/
def fxSubAllOk : Nat → SubRes := fun _ => .okBase64 "AA"

/-- Environment with an unrecognized IMAGE_PROVIDER override and a Google
key set. -/
def fxEnvBogus : GenEnv :=
  { IMAGE_PROVIDER := some "bogus", IMAGE_COUNT := none,
    GOOGLE_API_KEY := some "g", CLIPDROP_API_KEY := none,
    HUGGINGFACE_API_KEY := none, OPENAI_API_KEY := none,
    TOGETHER_API_KEY := none }

/-- Environment whose IMAGE_COUNT is set to a string that does not parse as
an integer. -/
def fxEnvBadCount : GenEnv :=
  { IMAGE_PROVIDER := none, IMAGE_COUNT := some "abc", GOOGLE_API_KEY := none,
    CLIPDROP_API_KEY := none, HUGGINGFACE_API_KEY := none,
    OPENAI_API_KEY := none, TOGETHER_API_KEY := none }

/-
Theorems.
-/

theorem lowerStr_empty_iff (s : String) : lowerStr s = "" ↔ s = "" := by
  constructor
  · intro h
    have hdata : (lowerStr s).data = List.map Char.toLower s.data := rfl
    rw [h] at hdata
    have hnil : s.data = [] := List.map_eq_nil_iff.mp hdata.symm
    exact String.ext (by rw [hnil])
  · intro h
    subst h
    rfl

theorem dispatchP3_trace (env : GenEnv) (oracle : Oracle) (p pr : String)
    (c : Option Int) :
    (dispatchP3 env oracle p pr c).2 = [(p, pr)] ∨
    (dispatchP3 env oracle p pr c).2 = [] := by
  unfold dispatchP3
  split
  · exact Or.inl rfl
  · exact Or.inr rfl

theorem fallbackTraceP3_cred (env : GenEnv) (p pr : String) (x : String × String)
    (hx : x ∈ fallbackTraceP3 env p pr) : credOKP3 env x.1 = true := by
  unfold fallbackTraceP3 at hx
  split_ifs at hx with h1 h2
  · rw [List.mem_singleton] at hx
    subst hx
    simpa [credOKP3] using h1.2
  · rw [List.mem_singleton] at hx
    subst hx
    simpa [credOKP3] using h2.2
  · simp at hx

/-- C1: when the initially selected provider fails, every provider invoked
by the fallback chain of generateImages (every trace entry after the first)
has its required credential present; credential-less providers are never
entered. -/
theorem C1_fallback_only_credentialed (env : GenEnv) (oracle : Oracle)
    (prompt : String) (count : Option Int) (x : String × String)
    (hx : x ∈ (generateImagesP3 env oracle prompt count).2.drop 1) :
    credOKP3 env x.1 = true := by
  unfold generateImagesP3 at hx
  split at hx
  · simp at hx
  · split at hx
    next imgs tr heq =>
      rcases dispatchP3_trace env oracle (selectProviderP3 env) prompt count with h | h <;>
        rw [heq] at h <;> simp only [] at h <;> subst h <;> simp at hx
    next e tr heq =>
      simp only [] at hx
      rcases dispatchP3_trace env oracle (selectProviderP3 env) prompt count with h | h <;>
        rw [heq] at h <;> simp only [] at h <;> subst h
      · exact fallbackTraceP3_cred env _ prompt x (by simpa using hx)
      · exact fallbackTraceP3_cred env _ prompt x (List.drop_subset 1 _ hx)

theorem C1_fallback_only_credentialed_witness :
    ("huggingface", "p") ∈ (generateImagesP3 fxEnvGH fxOracleFailGemini "p" (some 2)).2.drop 1 ∧
    credOKP3 fxEnvGH "huggingface" = true :=
  ⟨by decide,
   C1_fallback_only_credentialed fxEnvGH fxOracleFailGemini "p" (some 2)
     ("huggingface", "p") (by decide)⟩

theorem invokeP3_err (env : GenEnv) (oracle : Oracle)
    (h : ∀ n p c, (oracle n p c).isErr = true) (name prompt : String)
    (count : Option Int) : (invokeP3 env oracle name prompt count).isErr = true := by
  unfold invokeP3
  split_ifs <;> first | exact h _ _ _ | rfl

theorem dispatchP3_err (env : GenEnv) (oracle : Oracle)
    (h : ∀ n p c, (oracle n p c).isErr = true) (p pr : String) (c : Option Int) :
    (dispatchP3 env oracle p pr c).1.isErr = true := by
  unfold dispatchP3
  split
  · exact invokeP3_err env oracle h p pr c
  · rfl

theorem fallbackP3_err (env : GenEnv) (oracle : Oracle)
    (h : ∀ n p c, (oracle n p c).isErr = true) (p pr : String) (c : Option Int)
    (e : String) : (fallbackP3 env oracle p pr c e).isErr = true := by
  unfold fallbackP3
  split_ifs <;> first | exact invokeP3_err env oracle h _ _ _ | rfl

theorem generateImagesP3_err (env : GenEnv) (oracle : Oracle)
    (h : ∀ n p c, (oracle n p c).isErr = true) (prompt : String) (count : Option Int) :
    (generateImagesP3 env oracle prompt count).1.isErr = true := by
  unfold generateImagesP3
  split
  · rfl
  · split
    next imgs tr heq =>
      have hd := dispatchP3_err env oracle h (selectProviderP3 env) prompt count
      rw [heq] at hd
      simp [GenOutcome.isErr] at hd
    next e tr heq =>
      exact fallbackP3_err env oracle h (selectProviderP3 env) prompt count e

/-- C2: when every provider attempt fails (in particular when no provider is
eligible at all), the internal-fallback handler returns HTTP 503 with a JSON
error message and no images; the handler is total, so no exception escapes. -/
theorem C2_exhaustion_yields_503 (env : GenEnv) (oracle : Oracle) (body : GenBody)
    (hfail : ∀ n p c, (oracle n p c).isErr = true)
    (hp : truthyF body.prompt = true) :
    (handlerP3 env oracle "POST" body).1.status = 503 ∧
    ∃ m, (handlerP3 env oracle "POST" body).1.body = RespBody.errJson m := by
  unfold handlerP3
  rw [if_neg (by simp)]
  rw [if_neg (by simp [hp])]
  have herr := generateImagesP3_err env oracle hfail
    (buildPromptP3 (jfToString body.prompt) body.style)
    (imageCountClamp env.IMAGE_COUNT 4)
  split
  next imgs tr heq =>
    rw [heq] at herr
    simp [GenOutcome.isErr] at herr
  next m tr heq =>
    exact ⟨rfl, _, rfl⟩

theorem C2_exhaustion_yields_503_witness :
    (handlerP3 fxEnvNone fxOracleAllErr "POST" ⟨.str "hello", .absent⟩).1.status = 503 ∧
    ∃ m, (handlerP3 fxEnvNone fxOracleAllErr "POST" ⟨.str "hello", .absent⟩).1.body =
      RespBody.errJson m :=
  C2_exhaustion_yields_503 fxEnvNone fxOracleAllErr ⟨.str "hello", .absent⟩
    (fun _ _ _ => rfl) rfl

theorem selectP3_characterization (env : GenEnv) :
    selectProviderP3 env = overrideOrFirstCredentialed env.IMAGE_PROVIDER (prioListP3 env) "" := by
  unfold selectProviderP3 overrideOrFirstCredentialed prioListP3 firstCredentialed
  cases hip : env.IMAGE_PROVIDER with
  | none =>
    have e1 : lowerStr (jsOrS none "") = "" := by decide
    have e2 : truthyS (none : Option String) = false := rfl
    rw [if_pos e1, e2]
    simp only [Bool.false_eq_true, if_false]
    cases hG : truthyS env.GOOGLE_API_KEY <;>
    cases hC : truthyS env.CLIPDROP_API_KEY <;>
    cases hH : truthyS env.HUGGINGFACE_API_KEY <;>
    cases hO : truthyS env.OPENAI_API_KEY <;>
    cases hT : truthyS env.TOGETHER_API_KEY <;>
      simp [List.find?]
  | some s =>
    by_cases hs : s = ""
    · subst hs
      have e1 : lowerStr (jsOrS (some "") "") = "" := by decide
      have e2 : truthyS (some "") = false := by decide
      rw [if_pos e1, e2]
      simp only [Bool.false_eq_true, if_false]
      cases hG : truthyS env.GOOGLE_API_KEY <;>
      cases hC : truthyS env.CLIPDROP_API_KEY <;>
      cases hH : truthyS env.HUGGINGFACE_API_KEY <;>
      cases hO : truthyS env.OPENAI_API_KEY <;>
      cases hT : truthyS env.TOGETHER_API_KEY <;>
        simp [List.find?]
    · have h2 : jsOrS (some s) "" = s := by simp [jsOrS, hs]
      have h3 : ¬ lowerStr s = "" := fun h => hs ((lowerStr_empty_iff s).mp h)
      have h4 : truthyS (some s) = true := by simp [truthyS, hs]
      rw [h2, if_neg h3, h4, if_pos rfl]

theorem selectV2_characterization (env : GenEnv) :
    selectProviderV2 env = overrideOrFirstCredentialed env.IMAGE_PROVIDER (prioListV2 env) "pollinations" := by
  unfold selectProviderV2 overrideOrFirstCredentialed prioListV2 firstCredentialed
  cases hip : env.IMAGE_PROVIDER with
  | none =>
    have e1 : lowerStr (jsOrS none "") = "" := by decide
    have e2 : truthyS (none : Option String) = false := rfl
    rw [if_pos e1, e2]
    simp only [Bool.false_eq_true, if_false]
    cases hG : truthyS env.GOOGLE_API_KEY <;>
    cases hT : truthyS env.TOGETHER_API_KEY <;>
    cases hO : truthyS env.OPENAI_API_KEY <;>
      simp [List.find?]
  | some s =>
    by_cases hs : s = ""
    · subst hs
      have e1 : lowerStr (jsOrS (some "") "") = "" := by decide
      have e2 : truthyS (some "") = false := by decide
      rw [if_pos e1, e2]
      simp only [Bool.false_eq_true, if_false]
      cases hG : truthyS env.GOOGLE_API_KEY <;>
      cases hT : truthyS env.TOGETHER_API_KEY <;>
      cases hO : truthyS env.OPENAI_API_KEY <;>
        simp [List.find?]
    · have h2 : jsOrS (some s) "" = s := by simp [jsOrS, hs]
      have h3 : ¬ lowerStr s = "" := fun h => hs ((lowerStr_empty_iff s).mp h)
      have h4 : truthyS (some s) = true := by simp [truthyS, hs]
      rw [h2, if_neg h3, h4, if_pos rfl]

/-- C3 (counterexample): the claimed "set and recognized" condition on the
override is absent from the code — with the unrecognized override "bogus"
and GOOGLE_API_KEY present, the claim requires the priority scan to select
gemini (the first credentialed provider), but both selectors return "bogus";
the internal-fallback route then throws an Unknown-provider error with no
provider invoked instead of scanning the priority list. -/
theorem C3_unrecognized_override_cex :
    selectProviderP3 fxEnvBogus = "bogus" ∧
    selectProviderV2 fxEnvBogus = "bogus" ∧
    firstCredentialed (prioListP3 fxEnvBogus) "" = "gemini" ∧
    "bogus" ≠ "gemini" ∧
    generateImagesP3 fxEnvBogus fxOracleOkImg "p" (some 2) =
      (.err "Unknown provider: bogus", []) :=
  ⟨rfl, rfl, rfl, by decide, rfl⟩

/-- C3 (amended): provider selection is a deterministic pure function of the
configuration snapshot: any truthy override name is selected lower-cased,
whether or not it is recognized (an unrecognized override is rejected at
dispatch rather than handed to the priority scan); only when no override is
set is the first entry of the fixed hard-coded priority list whose required
credential is present selected (with the empty no-provider result for the
internal-fallback variant, and the keyless pollinations default for the
five-tier variant); no randomness and no retries. -/
theorem C3_selection_deterministic (env : GenEnv) :
    selectProviderP3 env = overrideOrFirstCredentialed env.IMAGE_PROVIDER (prioListP3 env) "" ∧
    selectProviderV2 env = overrideOrFirstCredentialed env.IMAGE_PROVIDER (prioListV2 env) "pollinations" :=
  ⟨selectP3_characterization env, selectV2_characterization env⟩

theorem firstAttemptV1_prompt (env : GenEnv) (oracle : Oracle) (seeds : Nat → Nat)
    (prompt : String) (count : Option Int) (x : String × String)
    (hx : x ∈ (firstAttemptV1 env oracle seeds prompt count).2) : x.2 = prompt := by
  unfold firstAttemptV1 at hx
  split_ifs at hx <;> (rw [List.mem_singleton] at hx; subst hx; rfl)

theorem generateImagesV1_prompt (env : GenEnv) (oracle : Oracle) (seeds : Nat → Nat)
    (prompt : String) (count : Option Int) (x : String × String)
    (hx : x ∈ (generateImagesV1 env oracle seeds prompt count).2) : x.2 = prompt := by
  unfold generateImagesV1 at hx
  split at hx
  next imgs tr heq =>
    refine firstAttemptV1_prompt env oracle seeds prompt count x ?_
    rw [heq]
    exact hx
  next e tr heq =>
    simp only [] at hx
    rcases List.mem_append.mp hx with h | h
    · refine firstAttemptV1_prompt env oracle seeds prompt count x ?_
      rw [heq]
      exact h
    · rw [List.mem_singleton] at h
      subst h
      rfl

theorem dispatchP3_prompt (env : GenEnv) (oracle : Oracle) (p prompt : String)
    (count : Option Int) (x : String × String)
    (hx : x ∈ (dispatchP3 env oracle p prompt count).2) : x.2 = prompt := by
  unfold dispatchP3 at hx
  split at hx
  · rw [List.mem_singleton] at hx
    subst hx
    rfl
  · simp at hx

theorem fallbackTraceP3_prompt (env : GenEnv) (p prompt : String) (x : String × String)
    (hx : x ∈ fallbackTraceP3 env p prompt) : x.2 = prompt := by
  unfold fallbackTraceP3 at hx
  split_ifs at hx <;> first
    | (rw [List.mem_singleton] at hx; subst hx; rfl)
    | simp at hx

theorem generateImagesP3_prompt (env : GenEnv) (oracle : Oracle) (prompt : String)
    (count : Option Int) (x : String × String)
    (hx : x ∈ (generateImagesP3 env oracle prompt count).2) : x.2 = prompt := by
  unfold generateImagesP3 at hx
  split at hx
  · simp at hx
  · split at hx
    next imgs tr heq =>
      refine dispatchP3_prompt env oracle (selectProviderP3 env) prompt count x ?_
      rw [heq]
      exact hx
    next e tr heq =>
      simp only [] at hx
      rcases List.mem_append.mp hx with h | h
      · refine dispatchP3_prompt env oracle (selectProviderP3 env) prompt count x ?_
        rw [heq]
        exact h
      · exact fallbackTraceP3_prompt env (selectProviderP3 env) prompt x h

theorem handlerV1_trace_prompt (env : GenEnv) (oracle : Oracle) (seeds : Nat → Nat)
    (req : GenReq) (body : GenBody) (ps ss : String) (x : String × String)
    (hm : req.method = "POST") (hct : req.contentType = "application/json")
    (hb : req.body = some body) (hp : body.prompt = .str ps)
    (hst : body.style = .str ss)
    (hx : x ∈ (handlerV1 env oracle seeds req).2) :
    x.2 = buildPromptV1 (jsTrim ps) (some ss) := by
  obtain ⟨m, ct, b⟩ := req
  simp only at hm hct hb
  subst hm
  subst hct
  subst hb
  obtain ⟨bp, bs⟩ := body
  simp only at hp hst
  subst hp
  subst hst
  have hict : strIncludes "application/json" "application/json" = true := by decide
  unfold handlerV1 at hx
  rw [if_neg (by simp)] at hx
  rw [if_neg (by simp [hict])] at hx
  simp only [styleFieldV1] at hx
  by_cases ht : jsTrim ps = ""
  · rw [if_pos ht] at hx
    simp at hx
  · rw [if_neg ht] at hx
    by_cases hl : (jsTrim ps).length > 4000
    · rw [if_pos hl] at hx
      simp at hx
    · rw [if_neg hl] at hx
      split at hx
      next imgs tr heq =>
        refine generateImagesV1_prompt env oracle seeds
          (buildPromptV1 (jsTrim ps) (some ss))
          (imageCountClamp env.IMAGE_COUNT 3) x ?_
        rw [heq]
        exact hx
      next e tr heq =>
        refine generateImagesV1_prompt env oracle seeds
          (buildPromptV1 (jsTrim ps) (some ss))
          (imageCountClamp env.IMAGE_COUNT 3) x ?_
        rw [heq]
        exact hx

/-- C4 (counterexample): the canned-suffix mapping is not used by every
generation route — for a request with the known style name cinematic served
by the internal-fallback route, the finalized prompt carries the uniform
`. Image style: cinematic` suffix, which is neither the canned suffix nor
the generic `, cinematic style` suffix, and that is the prompt the provider
attempt receives. -/
theorem C4_style_suffix_cex :
    buildPromptP3 "a city skyline" (.str "cinematic") =
      "a city skyline. Image style: cinematic" ∧
    handlerP3 fxEnvG fxOracleOkImg "POST" ⟨.str "a city skyline", .str "cinematic"⟩ =
      (⟨200, .imagesJson ["img"]⟩,
       [("gemini", "a city skyline. Image style: cinematic")]) ∧
    "a city skyline. Image style: cinematic" ≠
      "a city skyline" ++ ", cinematic lighting and composition" ∧
    "a city skyline. Image style: cinematic" ≠
      "a city skyline" ++ (", " ++ "cinematic" ++ " style") := by
  exact ⟨rfl, rfl, by decide, by decide⟩

/-- C4 (amended): the fully validating route appends a canned suffix for a
known style name and the generic `, <style> style` suffix for an unknown
one, while the internal-fallback route appends the uniform
`. Image style: <style>` suffix for every truthy style; in both routes the
finalized prompt is computed once by the handler, before the cascade, and
every provider attempt recorded in the cascade trace receives that identical
prompt string as its argument. -/
theorem C4_style_composition_and_stable_prompt :
    (∀ p s m, s ≠ "" → styleModifiersV1 (lowerStr s) = some m →
      buildPromptV1 p (some s) = p ++ m) ∧
    (∀ p s, s ≠ "" → styleModifiersV1 (lowerStr s) = none →
      buildPromptV1 p (some s) = p ++ (", " ++ s ++ " style")) ∧
    (∀ env oracle seeds prompt count x,
      x ∈ (generateImagesV1 env oracle seeds prompt count).2 → x.2 = prompt) ∧
    (∀ env oracle prompt count x,
      x ∈ (generateImagesP3 env oracle prompt count).2 → x.2 = prompt) ∧
    (∀ env oracle seeds req body ps ss x, req.method = "POST" →
      req.contentType = "application/json" → req.body = some body →
      body.prompt = .str ps → body.style = .str ss →
      x ∈ (handlerV1 env oracle seeds req).2 →
      x.2 = buildPromptV1 (jsTrim ps) (some ss)) ∧
    (∀ p st, truthyF st = true →
      buildPromptP3 p st = p ++ ". Image style: " ++ jfToString st) := by
  refine ⟨?_, ?_, ?_, ?_, ?_, ?_⟩
  · intro p s m hs hm
    show (if s = "" then p
      else p ++ ((styleModifiersV1 (lowerStr s)).getD (", " ++ s ++ " style"))) = p ++ m
    rw [if_neg hs, hm]
    rfl
  · intro p s hs hm
    show (if s = "" then p
      else p ++ ((styleModifiersV1 (lowerStr s)).getD (", " ++ s ++ " style"))) =
      p ++ (", " ++ s ++ " style")
    rw [if_neg hs, hm]
    rfl
  · intro env oracle seeds prompt count x hx
    exact generateImagesV1_prompt env oracle seeds prompt count x hx
  · intro env oracle prompt count x hx
    exact generateImagesP3_prompt env oracle prompt count x hx
  · intro env oracle seeds req body ps ss x hm hct hb hp hst hx
    exact handlerV1_trace_prompt env oracle seeds req body ps ss x hm hct hb hp hst hx
  · intro p st h
    unfold buildPromptP3
    rw [if_pos h]

theorem C4_style_composition_and_stable_prompt_witness :
    buildPromptV1 "a city skyline" (some "cinematic") =
      "a city skyline" ++ ", cinematic lighting and composition" ∧
    buildPromptV1 "a cat" (some "neon") = "a cat" ++ (", " ++ "neon" ++ " style") ∧
    (("pollinations", "hi") : String × String).2 = "hi" ∧
    buildPromptP3 "a dog" (.str "anime") =
      "a dog" ++ ". Image style: " ++ jfToString (.str "anime") :=
  ⟨C4_style_composition_and_stable_prompt.1 "a city skyline" "cinematic"
      ", cinematic lighting and composition" (by decide) (by decide),
   C4_style_composition_and_stable_prompt.2.1 "a cat" "neon" (by decide) (by decide),
   C4_style_composition_and_stable_prompt.2.2.1 fxEnvNone fxOracleOkImg fxSeeds
     "hi" (some 1) ("pollinations", "hi") (by decide),
   C4_style_composition_and_stable_prompt.2.2.2.2.2 "a dog" (.str "anime") rfl⟩

/-- C5 (counterexample): the claim that a successful provider invocation
returns exactly the requested image count fails on the natively batching
Gemini invoker, which maps whatever predictions the upstream returned: with
two images requested and a single prediction in the response, the attempt
succeeds with one image. -/
theorem C5_count_cex :
    generateWithGeminiCore fxEnvG (.httpOk (some [("image/png", "AAA")])) (some 2) =
      .ok ["data:image/png;base64,AAA"] ∧
    ["data:image/png;base64,AAA"].length = 1 ∧ (1 : Nat) ≠ 2 := by
  refine ⟨rfl, rfl, by decide⟩

/-- C5 (amended): for providers issuing one sub-call per requested image
(Clipdrop), a successful attempt returns exactly the requested count and any
sub-call rejection fails the whole Promise.all join; the natively batching
Gemini invoker instead returns one image per upstream prediction, with no
check against the requested count. -/
theorem C5_all_or_nothing (env : GenEnv) (sub : Nat → SubRes) (prompt : String)
    (n : Nat) :
    (∀ imgs, generateWithClipdropP3 env sub prompt (some (n : Int)) = .ok imgs →
      imgs.length = n) ∧
    (∀ i, i < n → isSubErr (sub i) = true →
      (generateWithClipdropP3 env sub prompt (some (n : Int))).isErr = true) ∧
    (∀ preds, truthyS env.GOOGLE_API_KEY = true →
      generateWithGeminiCore env (.httpOk (some preds)) (some (n : Int)) =
        .ok (preds.map (fun pr => "data:" ++ pr.1 ++ ";base64," ++ pr.2))) := by
  have hiters : loopIters (some (n : Int)) = n := by
    simp [loopIters]
  refine ⟨?_, ?_, ?_⟩
  · intro imgs h
    unfold generateWithClipdropP3 at h
    rw [hiters] at h
    split_ifs at h
    split at h
    · exact absurd h (by simp)
    · have := (GenOutcome.ok.injEq _ _).mp h
      rw [← this]
      simp
  · intro i hi hsub
    unfold generateWithClipdropP3
    rw [hiters]
    split_ifs
    · split
      next j heq => rfl
      next heq =>
        rw [List.find?_eq_none] at heq
        exact absurd hsub (by simpa using heq i (List.mem_range.mpr hi))
    · rfl
  · intro preds hk
    unfold generateWithGeminiCore
    rw [if_pos hk]

theorem C5_all_or_nothing_witness :
    ["data:image/png;base64,AA", "data:image/png;base64,AA"].length = 2 ∧
    (generateWithClipdropP3 fxEnvGC fxSubOneErr "p" (some 2)).isErr = true ∧
    generateWithGeminiCore fxEnvG (.httpOk (some [("image/png", "AAA")])) (some 2) =
      .ok ["data:image/png;base64,AAA"] :=
  ⟨(C5_all_or_nothing fxEnvGC fxSubAllOk "p" 2).1
      ["data:image/png;base64,AA", "data:image/png;base64,AA"] (by decide),
   (C5_all_or_nothing fxEnvGC fxSubOneErr "p" 2).2.1 1 (by decide) (by decide),
   by
     have h := (C5_all_or_nothing fxEnvG (fun _ => SubRes.okBase64 "") "p" 2).2.2
       [("image/png", "AAA")] (by decide)
     simpa using h⟩

/-- C6 (counterexample): a whitespace-only prompt is truthy in JavaScript,
so the internal-fallback handler does not return 400 for it: with a Google
key set it invokes the gemini provider and returns 200. -/
theorem C6_whitespace_cex :
    handlerP3 fxEnvG fxOracleOkImg "POST" ⟨.str " ", .absent⟩ =
      (⟨200, .imagesJson ["img"]⟩, [("gemini", " ")]) ∧
    jsTrim " " = "" := by
  exact ⟨rfl, rfl⟩

/-- C6 (amended): the fully validating generate handler rejects an empty or
whitespace-only prompt with HTTP 400 before any provider function is invoked
(empty trace); the simplified variant handlers only reject a falsy prompt,
so a whitespace-only prompt reaches the provider cascade there. -/
theorem C6_empty_prompt_400 (env : GenEnv) (oracle : Oracle) (seeds : Nat → Nat)
    (req : GenReq) (body : GenBody) (ps : String) (hm : req.method = "POST")
    (hct : req.contentType = "application/json") (hb : req.body = some body)
    (hp : body.prompt = .str ps) (ht : jsTrim ps = "") :
    handlerV1 env oracle seeds req = (⟨400, .errJson "Prompt cannot be empty."⟩, []) := by
  obtain ⟨m, ct, b⟩ := req
  simp only at hm hct hb
  subst hm
  subst hct
  subst hb
  obtain ⟨bp, bs⟩ := body
  simp only at hp
  subst hp
  have hict : strIncludes "application/json" "application/json" = true := by decide
  unfold handlerV1
  rw [if_neg (by simp)]
  rw [if_neg (by simp [hict])]
  simp only [ht]
  rw [if_pos trivial]

theorem C6_empty_prompt_400_witness :
    handlerV1 fxEnvNone fxOracleOkImg fxSeeds
      ⟨"POST", "application/json", some ⟨.str "   ", .absent⟩⟩ =
      (⟨400, .errJson "Prompt cannot be empty."⟩, []) :=
  C6_empty_prompt_400 fxEnvNone fxOracleOkImg fxSeeds
    ⟨"POST", "application/json", some ⟨.str "   ", .absent⟩⟩
    ⟨.str "   ", .absent⟩ "   " rfl rfl rfl rfl (by decide)

/-- C7 (counterexample): the simplified analyze handler keys only on
imageBase64, so a request carrying both an imageUrl and an imageBase64 is
accepted: with a Google key set it contacts the Gemini provider and returns
200, not 400. -/
theorem C7_both_sources_cex :
    handlerAnalyzeP1 fxAEnvG "POST" (some fxABodyBoth) fxGemOracleOk
      (.error "unused") = (⟨200, .jsonVal (.obj [])⟩, some "gemini") ∧
    hasField fxABodyBoth.imageUrl = true ∧
    hasField fxABodyBoth.imageBase64 = true :=
  ⟨rfl, rfl, rfl⟩

/-- C7 (amended): the fully validating analyze handler enforces exactly one
image source — a request with both sources present, or with neither, gets
HTTP 400 and no provider is contacted; the simplified variant handler keys
only on imageBase64 and accepts (and analyzes) a request that also carries
imageUrl. -/
theorem C7_exactly_one_source (env : AnalyzeEnv) (req : AnalyzeReq)
    (body : AnalyzeBody) (up : VisionUpstream) (pj : String → Except String JVal)
    (hm : req.method = "POST") (hct : req.contentType = "application/json")
    (hb : req.body = some body)
    (hboth : (hasField body.imageUrl = true ∧ hasField body.imageBase64 = true) ∨
      (hasField body.imageUrl = false ∧ hasField body.imageBase64 = false)) :
    (handlerAnalyze env req up pj).1.status = 400 ∧
    (handlerAnalyze env req up pj).2 = false := by
  obtain ⟨m, ct, b⟩ := req
  simp only at hm hct hb
  subst hm
  subst hct
  subst hb
  obtain ⟨u, b64⟩ := body
  simp only at hboth
  have hict : strIncludes "application/json" "application/json" = true := by decide
  rcases hboth with ⟨h1, h2⟩ | ⟨h1, h2⟩ <;>
    simp [handlerAnalyze, hict, h1, h2]

theorem C7_exactly_one_source_witness :
    (handlerAnalyze fxAEnvO ⟨"POST", "application/json", some fxABodyBoth⟩
      fxVisionData fxParseJ).1.status = 400 ∧
    (handlerAnalyze fxAEnvO ⟨"POST", "application/json", some fxABodyBoth⟩
      fxVisionData fxParseJ).2 = false :=
  C7_exactly_one_source fxAEnvO ⟨"POST", "application/json", some fxABodyBoth⟩
    fxABodyBoth fxVisionData fxParseJ rfl rfl rfl (Or.inl ⟨rfl, rfl⟩)

/-- C8 (counterexample): an upstream analysis whose objects list is empty
passes validation — an empty array is truthy and no emptiness check exists —
and is returned to the caller with HTTP 200, refuting the claimed non-empty
objects requirement. -/
theorem C8_empty_objects_cex :
    handlerAnalyze fxAEnvO fxAReqBase64 fxVisionData fxParseJ =
      (⟨200, .jsonVal (.obj [("analysis", getProp fxParsedEmptyObjects "analysis"),
        ("suggestedPrompt", getProp fxParsedEmptyObjects "suggestedPrompt")])⟩, true) ∧
    getProp (getProp fxParsedEmptyObjects "analysis") "objects" = .arr [] :=
  ⟨rfl, rfl⟩

theorem mapAnalyzeError_status (e : AErr) : (mapAnalyzeError e).status ≠ 200 := by
  cases e <;> simp only [mapAnalyzeError] <;> split_ifs <;> decide

theorem handlerAnalyze_error_status (env : AnalyzeEnv) (req : AnalyzeReq)
    (up : VisionUpstream) (pj : String → Except String JVal) (e : AErr)
    (hA : analyzeImageM env up pj = .error e) :
    (handlerAnalyze env req up pj).1.status ≠ 200 := by
  unfold handlerAnalyze
  split_ifs <;> try decide
  split
  · decide
  next body =>
    split_ifs <;> try decide
    rw [hA]
    exact mapAnalyzeError_status e

/-- C8 (amended): a parsed Vision response is accepted by the validating
analyze route exactly when analysis and suggestedPrompt are truthy and the
objects, style, mood and lighting fields of analysis are truthy — an empty
objects array is truthy and therefore accepted, emptiness not being checked;
a missing field makes the attempt fail with a thrown error (mapped to an
error status by the catch block, there being no second provider in this
route), and the handler returns 200 only when analyzeImage succeeded — never
a partial result. -/
theorem C8_accept_iff_truthy_fields :
    (∀ parsed v, validateParsed parsed = .ok v ↔
      ((truthyJ (getProp parsed "analysis") ∧ truthyJ (getProp parsed "suggestedPrompt") ∧
        truthyJ (getProp (getProp parsed "analysis") "objects") ∧
        truthyJ (getProp (getProp parsed "analysis") "style") ∧
        truthyJ (getProp (getProp parsed "analysis") "mood") ∧
        truthyJ (getProp (getProp parsed "analysis") "lighting")) ∧
       v = ensureObjectsArray parsed)) ∧
    (∀ env req up pj, (handlerAnalyze env req up pj).1.status = 200 →
      ∃ v, analyzeImageM env up pj = .ok v) := by
  constructor
  · intro parsed v
    unfold validateParsed
    split_ifs with h1 h2
    · constructor
      · intro h
        exact ⟨⟨h1.1, h1.2, h2.1, h2.2.1, h2.2.2.1, h2.2.2.2⟩, (Except.ok.inj h).symm⟩
      · rintro ⟨_, rfl⟩
        rfl
    · constructor
      · intro h
        exact absurd h (by simp)
      · rintro ⟨⟨hA, hB, hC, hD, hE, hF⟩, _⟩
        exact absurd ⟨hC, hD, hE, hF⟩ h2
    · constructor
      · intro h
        exact absurd h (by simp)
      · rintro ⟨⟨hA, hB, _⟩, _⟩
        exact absurd ⟨hA, hB⟩ h1
  · intro env req up pj h
    cases hA : analyzeImageM env up pj with
    | ok v => exact ⟨v, rfl⟩
    | error e => exact absurd h (handlerAnalyze_error_status env req up pj e hA)

theorem C8_accept_iff_truthy_fields_witness :
    validateParsed fxParsedEmptyObjects = .ok fxParsedEmptyObjects ∧
    ∃ v, analyzeImageM fxAEnvO fxVisionData fxParseJ = .ok v :=
  ⟨((C8_accept_iff_truthy_fields.1 fxParsedEmptyObjects fxParsedEmptyObjects).mpr
      ⟨⟨rfl, rfl, rfl, rfl, rfl, rfl⟩, rfl⟩),
   C8_accept_iff_truthy_fields.2 fxAEnvO fxAReqBase64 fxVisionData fxParseJ rfl⟩

/-- C9 (counterexample): not every remote provider call is bounded by a
per-call timeout — the HuggingFace, Clipdrop, OpenAI and Together invokers
of the internal-fallback route issue their fetches with no abort signal at
all. -/
theorem C9_no_timeout_cex :
    huggingFaceFetchP3.timeoutMs = none ∧ clipdropFetchP3.timeoutMs = none ∧
    openAIFetchP3.timeoutMs = none ∧ togetherFetchP3.timeoutMs = none :=
  ⟨rfl, rfl, rfl, rfl⟩

/-- C9 (amended): only the Gemini invoker bounds its remote call, with an
8000 ms AbortController timeout; when that call fails (in particular on
abort) the failure is caught and the cascade advances to the credentialed
Clipdrop fallback instead of the request hanging; the other invokers set no
per-call timeout. -/
theorem C9_gemini_timeout_and_cascade (k : String) (env : GenEnv)
    (oracle : Oracle) (p : String) (c : Option Int) (m : String)
    (hip : env.IMAGE_PROVIDER = none)
    (hg : truthyS env.GOOGLE_API_KEY = true)
    (hc : truthyS env.CLIPDROP_API_KEY = true)
    (hfail : oracle "gemini" p c = .err m) :
    (geminiFetchP3 k).timeoutMs = some 8000 ∧
    generateImagesP3 env oracle p c =
      (invokeP3 env oracle "clipdrop" p c, [("gemini", p), ("clipdrop", p)]) := by
  refine ⟨rfl, ?_⟩
  have hsel : selectProviderP3 env = "gemini" := by
    unfold selectProviderP3
    rw [hip]
    rw [if_pos (by decide), if_pos hg]
  have hd : dispatchP3 env oracle "gemini" p c = (.err m, [("gemini", p)]) := by
    unfold dispatchP3
    rw [if_pos (Or.inl rfl)]
    unfold invokeP3
    rw [if_pos rfl, if_pos hg, hfail]
  unfold generateImagesP3
  rw [hsel]
  rw [if_neg (by decide)]
  rw [hd]
  show (fallbackP3 env oracle "gemini" p c m,
    [("gemini", p)] ++ fallbackTraceP3 env "gemini" p) = _
  unfold fallbackP3 fallbackTraceP3
  rw [if_pos ⟨rfl, hc⟩, if_pos ⟨rfl, hc⟩]
  rfl

theorem C9_gemini_timeout_and_cascade_witness :
    (geminiFetchP3 "g").timeoutMs = some 8000 ∧
    generateImagesP3 fxEnvGC fxOracleFailGemini "p" (some 2) =
      (invokeP3 fxEnvGC fxOracleFailGemini "clipdrop" "p" (some 2),
       [("gemini", "p"), ("clipdrop", "p")]) :=
  C9_gemini_timeout_and_cascade "g" fxEnvGC fxOracleFailGemini "p" (some 2)
    "boom" rfl rfl rfl rfl

/-- C10: the IMAGE_COUNT clamp computes min(max(1, n), maxCount) whenever the
variable parses to an integer n; when it is set to a string that does not
parse as an integer the clamp evaluates to NaN, the per-image loop of a
provider runs zero iterations, and the keyless Pollinations path of the
validating handler returns HTTP 200 with an empty images array. -/
theorem C10_image_count_clamp_nan (maxC : Int) :
    (∀ v n, jsParseInt10 (jsOrS v "2") = some n →
      imageCountClamp v maxC = some (min (max 1 n) maxC)) ∧
    (∀ s, s ≠ "" → jsParseInt10 s = none → imageCountClamp (some s) maxC = none) ∧
    (∀ c, loopIters c = 0 → ∀ seeds prompt, generateWithPollinationsV1 seeds prompt c = []) ∧
    (∀ env oracle seeds req body ps s, req.method = "POST" →
      req.contentType = "application/json" → req.body = some body →
      body.prompt = .str ps → body.style = .absent → jsTrim ps ≠ "" →
      (jsTrim ps).length ≤ 4000 → env.IMAGE_PROVIDER = none →
      env.IMAGE_COUNT = some s → s ≠ "" → jsParseInt10 s = none →
      handlerV1 env oracle seeds req =
        (⟨200, .imagesJson []⟩, [("pollinations", jsTrim ps)])) := by
  refine ⟨?_, ?_, ?_, ?_⟩
  · intro v n h
    unfold imageCountClamp
    rw [h]
  · intro s hs h
    unfold imageCountClamp
    rw [show jsOrS (some s) "2" = s by simp [jsOrS, hs], h]
  · intro c hc seeds prompt
    unfold generateWithPollinationsV1
    rw [hc]
    rfl
  · intro env oracle seeds req body ps s hm hct hb hp hst ht hl hip hic hs hparse
    obtain ⟨m, ct, b⟩ := req
    simp only at hm hct hb
    subst hm
    subst hct
    subst hb
    obtain ⟨bp, bs⟩ := body
    simp only at hp hst
    subst hp
    subst hst
    have hict : strIncludes "application/json" "application/json" = true := by decide
    have hcount : imageCountClamp env.IMAGE_COUNT 3 = none := by
      rw [hic]
      unfold imageCountClamp
      rw [show jsOrS (some s) "2" = s by simp [jsOrS, hs], hparse]
    have hpoll : generateWithPollinationsV1 seeds
        (buildPromptV1 (jsTrim ps) none) (imageCountClamp env.IMAGE_COUNT 3) = [] := by
      rw [hcount]
      rfl
    have hl2 : ¬ (jsTrim ps).length > 4000 := by omega
    unfold handlerV1
    rw [if_neg (by simp)]
    rw [if_neg (by simp [hict])]
    simp only [ht, hl2, if_false, styleFieldV1]
    unfold generateImagesV1 firstAttemptV1
    rw [hip]
    rw [if_neg (by decide), if_neg (by decide)]
    rw [hpoll]
    rfl

theorem C10_image_count_clamp_nan_witness :
    imageCountClamp (some "7") 3 = some (min (max 1 7) 3) ∧
    imageCountClamp (some "abc") 3 = none ∧
    generateWithPollinationsV1 fxSeeds "x" none = [] ∧
    handlerV1 fxEnvBadCount fxOracleOkImg fxSeeds
      ⟨"POST", "application/json", some ⟨.str "a cat", .absent⟩⟩ =
      (⟨200, .imagesJson []⟩, [("pollinations", "a cat")]) := by
  refine ⟨(C10_image_count_clamp_nan 3).1 (some "7") 7 (by decide),
    (C10_image_count_clamp_nan 3).2.1 "abc" (by decide) (by decide),
    (C10_image_count_clamp_nan 3).2.2.1 none rfl fxSeeds "x", ?_⟩
  have h := (C10_image_count_clamp_nan 3).2.2.2 fxEnvBadCount fxOracleOkImg fxSeeds
    ⟨"POST", "application/json", some ⟨.str "a cat", .absent⟩⟩
    ⟨.str "a cat", .absent⟩ "a cat" "abc" rfl rfl rfl rfl rfl (by decide)
    (by decide) rfl rfl (by decide) (by decide)
  simpa using h

end PearMedia
